import Mathlib

/-!
Verification of the marketing-operations core of `cs411_proj2`:
the segmentation rule engine (`marketing/segmentation.py`), the campaign
lifecycle with its simulated engagement funnel (`marketing/campaigns.py`),
and the metrics aggregator (`marketing/analytics.py`).

The CSV-backed record store is modelled as an explicit in-memory state
(`Marketing.State`) holding the four collections; each Python function that
reads/writes the CSV files becomes a pure Lean function on that state.
Python `float` values that the code only ever compares and divides
(`total_spent`, the metric rates) are modelled as rationals; Python `int`
as `Int`/`Nat`; the unseeded `random.random() < p` draws of the funnel
simulation are modelled as an oracle `ℕ → Bool` giving the outcome of the
k-th draw; `datetime.now()` is abstracted as a timestamp parameter (no
verified property depends on timestamps).
-/

namespace Marketing

/-- A customer record as produced by `load_customers`: `age` is parsed to an
integer and `total_spent` to a (rational-modelled) float at load time. -/
structure Customer where
  customer_id : String
  name : String
  email : String
  age : Int
  location : String
  total_spent : ℚ
  last_purchase_date : String
  deriving Repr, DecidableEq

/-- A segment rule-set: the four recognized keys of `match_customer_rules`,
each independently optional (`none` = key absent from the rules dict). -/
structure Rules where
  min_age : Option Int
  max_age : Option Int
  location : Option String
  min_total_spent : Option ℚ
  deriving Repr, DecidableEq

/-- A segment record as produced by `load_segments` (rules kept structured;
the JSON round-trip of `rules_json` is not modelled). -/
structure Segment where
  segment_id : String
  segment_name : String
  rules : Rules
  deriving Repr, DecidableEq

/-- A campaign record (row of `campaigns.csv`). -/
structure Campaign where
  campaign_id : String
  name : String
  segment_id : String
  start_date : String
  status : String
  subject : String
  body : String
  deriving Repr, DecidableEq

/-- A marketing event record (row of `events.csv`). -/
structure Event where
  event_id : String
  campaign_id : String
  customer_id : String
  event_type : String
  timestamp : String
  deriving Repr, DecidableEq

/-- The four CSV-backed collections of the record store. -/
structure State where
  customers : List Customer
  segments : List Segment
  campaigns : List Campaign
  events : List Event
  deriving Repr, DecidableEq

/-- Python truthiness of an optional int rule value:
`'k' in rules and rules['k']` is true iff the key is present with a
nonzero value. -/
def activeI : Option Int → Bool
  | some v => v != 0
  | none => false

/-- Python truthiness of an optional string rule value: present and
non-empty. -/
def activeS : Option String → Bool
  | some s => s != ""
  | none => false

/-- Python truthiness of an optional float rule value: present and
nonzero. -/
def activeQ : Option ℚ → Bool
  | some v => v != 0
  | none => false

/-- Python `needle in haystack` on lists of characters: `needle` occurs as a
contiguous substring of `haystack`. -/
def charsContain (needle : List Char) : List Char → Bool
  | [] => needle.isEmpty
  | c :: t => needle.isPrefixOf (c :: t) || charsContain needle t

/-- Python `str.lower()`, character-wise (the rule values and locations in
this system are ASCII, where `Char.toLower` agrees with Python). -/
def strLower (s : String) : String :=
  ⟨s.data.map Char.toLower⟩

/-- `rules['location'].lower() in customer['location'].lower()`:
case-insensitive substring containment (segmentation.py line 133). -/
def locContains (custLoc ruleLoc : String) : Bool :=
  charsContain (strLower ruleLoc).data (strLower custLoc).data

/-- `match_customer_rules(customer, rules)` (segmentation.py lines 110-141):
the four guard/reject checks in source order, returning `True` when no
active constraint rejects. -/
def match_customer_rules (customer : Customer) (rules : Rules) : Bool :=
  if activeI rules.min_age && decide (customer.age < rules.min_age.getD 0) then
    false
  else if activeI rules.max_age && decide (customer.age > rules.max_age.getD 0) then
    false
  else if activeS rules.location && !(locContains customer.location (rules.location.getD "")) then
    false
  else if activeQ rules.min_total_spent && decide (customer.total_spent < rules.min_total_spent.getD 0) then
    false
  else
    true

/-- `filter_customers_by_segment(customers, rules)` (segmentation.py lines
88-107): loop over customers, skip non-matching, append matching. -/
def filter_customers_by_segment (customers : List Customer) (rules : Rules) : List Customer :=
  customers.foldl (fun filtered customer =>
    if match_customer_rules customer rules then filtered ++ [customer] else filtered) []

/-- `get_segment_by_id(segment_id)` (segmentation.py lines 71-85): first
segment whose id equals the (string-coerced) argument, else `None`. -/
def get_segment_by_id (s : State) (segment_id : String) : Option Segment :=
  s.segments.find? (fun seg => seg.segment_id == segment_id)

/-- `create_segment(segment_name, rules)` (segmentation.py lines 144-181):
append a segment with id `str(len(segments) + 1)`; return the new state and
the new id. -/
def create_segment (s : State) (segment_name : String) (rules : Rules) : State × String :=
  let new_id := toString (s.segments.length + 1)
  ({ s with segments := s.segments ++ [⟨new_id, segment_name, rules⟩] }, new_id)

/-- `count_customers_in_segment(segment)` (segmentation.py lines 184-196). -/
def count_customers_in_segment (s : State) (segment : Segment) : Nat :=
  (filter_customers_by_segment s.customers segment.rules).length

/-- `get_campaign_by_id(campaign_id)` (campaigns.py lines 41-55): first
campaign whose id equals the (string-coerced) argument, else `None`. -/
def get_campaign_by_id (s : State) (campaign_id : String) : Option Campaign :=
  s.campaigns.find? (fun c => c.campaign_id == campaign_id)

/-- `create_campaign(name, segment_id, start_date, subject, body)`
(campaigns.py lines 58-102): append a campaign with id
`str(len(campaigns) + 1)` and status `'draft'`; return the new state and the
new id. -/
def create_campaign (s : State) (name segment_id start_date subject body : String) :
    State × String :=
  let new_id := toString (s.campaigns.length + 1)
  ({ s with campaigns :=
      s.campaigns ++ [⟨new_id, name, segment_id, start_date, "draft", subject, body⟩] },
   new_id)

/-- `get_campaign_customers(campaign_id)` (campaigns.py lines 105-124):
missing campaign or missing segment degrades to the empty list. -/
def get_campaign_customers (s : State) (campaign_id : String) : List Customer :=
  match get_campaign_by_id s campaign_id with
  | none => []
  | some campaign =>
    match get_segment_by_id s campaign.segment_id with
    | none => []
    | some segment => filter_customers_by_segment s.customers segment.rules

/-- `generate_event_id()` (campaigns.py lines 205-226): `str(len(rows) + 1)`,
which is `'1'` both for a missing events file and for an empty row list. -/
def generate_event_id (events : List Event) : String :=
  toString (events.length + 1)

/-- `create_event(campaign_id, customer_id, event_type)` (campaigns.py lines
168-202): append one event with a freshly generated id; `ts` stands for
`datetime.now().isoformat()`. -/
def create_event (s : State) (campaign_id customer_id event_type ts : String) : State :=
  { s with events :=
      s.events ++ [⟨generate_event_id s.events, campaign_id, customer_id, event_type, ts⟩] }

/-- `update_campaign_status` body (campaigns.py lines 242-249): set `status`
on every row whose `campaign_id` equals the (string-coerced) argument, keep
every row, preserve order. -/
def update_campaign_rows (campaigns : List Campaign) (campaign_id new_status : String) :
    List Campaign :=
  campaigns.map (fun row =>
    if row.campaign_id == campaign_id then { row with status := new_status } else row)

/-- `update_campaign_status(campaign_id, new_status)` (campaigns.py lines
229-256): read all campaigns, rewrite the matching rows' status, write all
back. -/
def update_campaign_status (s : State) (campaign_id new_status : String) : State :=
  { s with campaigns := update_campaign_rows s.campaigns campaign_id new_status }

/-- The per-customer body of the send loop (campaigns.py lines 146-160):
always record `sent`; with the next random draw record `opened`; if opened,
with the next draw record `clicked`; if clicked, with the next draw record
`converted`. `rnd k` is the outcome of the k-th `random.random() < p`
comparison; the returned counter is the index of the next unused draw. -/
def simulate_customer (campaign_id ts : String) (rnd : Nat → Bool)
    (st : State × Nat) (customer : Customer) : State × Nat :=
  let s1 := create_event st.1 campaign_id customer.customer_id "sent" ts
  if rnd st.2 then
    let s2 := create_event s1 campaign_id customer.customer_id "opened" ts
    if rnd (st.2 + 1) then
      let s3 := create_event s2 campaign_id customer.customer_id "clicked" ts
      if rnd (st.2 + 2) then
        (create_event s3 campaign_id customer.customer_id "converted" ts, st.2 + 3)
      else (s3, st.2 + 3)
    else (s2, st.2 + 2)
  else (s1, st.2 + 1)

/-- The send loop over the audience, in audience order. -/
def send_loop (campaign_id ts : String) (rnd : Nat → Bool)
    (customers : List Customer) (st : State × Nat) : State × Nat :=
  customers.foldl (simulate_customer campaign_id ts rnd) st

/-- `send_campaign(campaign_id)` (campaigns.py lines 127-165): guarded no-op
returning 0 unless the campaign exists with status `'draft'`; otherwise
resolve the audience, run the funnel simulation for each customer, update
the status to `'sent'`, and return the audience size. -/
def send_campaign (s : State) (campaign_id ts : String) (rnd : Nat → Bool) : State × Nat :=
  match get_campaign_by_id s campaign_id with
  | none => (s, 0)
  | some campaign =>
    if campaign.status != "draft" then (s, 0)
    else
      let customers := get_campaign_customers s campaign_id
      let s1 := (send_loop campaign_id ts rnd customers (s, 0)).1
      let s2 := update_campaign_status s1 campaign_id "sent"
      (s2, customers.length)

/-- Round-half-to-even on a rational: the tie-breaking rule of Python's
built-in `round`. -/
def roundHalfEven (q : ℚ) : ℤ :=
  let n := ⌊q⌋
  let r := q - n
  if r < 1 / 2 then n
  else if 1 / 2 < r then n + 1
  else if n % 2 = 0 then n else n + 1

/-- Python `round(x, 2)`: round to two decimal places, ties to even
(float representation error is abstracted away: the rates are exact
rationals here). -/
def pyRound2 (q : ℚ) : ℚ :=
  (roundHalfEven (q * 100) : ℚ) / 100

/-- The metrics dict returned by `get_campaign_metrics`. -/
structure Metrics where
  campaign_id : String
  sent : Nat
  opened : Nat
  clicked : Nat
  converted : Nat
  open_rate : ℚ
  click_rate : ℚ
  conversion_rate : ℚ
  deriving Repr, DecidableEq

/-- `get_campaign_metrics(campaign_id)` (analytics.py lines 38-73): filter
the events to this (string-coerced) campaign id, count the four event
types, and compute the three percentage rates, each 0 when `sent` is 0 and
rounded to 2 decimal places. -/
def get_campaign_metrics (events : List Event) (campaign_id : String) : Metrics :=
  let campaign_events := events.filter (fun e => e.campaign_id == campaign_id)
  let sent_count := (campaign_events.filter (fun e => e.event_type == "sent")).length
  let opened_count := (campaign_events.filter (fun e => e.event_type == "opened")).length
  let clicked_count := (campaign_events.filter (fun e => e.event_type == "clicked")).length
  let converted_count := (campaign_events.filter (fun e => e.event_type == "converted")).length
  let open_rate : ℚ := if sent_count > 0 then (opened_count : ℚ) / sent_count * 100 else 0
  let click_rate : ℚ := if sent_count > 0 then (clicked_count : ℚ) / sent_count * 100 else 0
  let conversion_rate : ℚ :=
    if sent_count > 0 then (converted_count : ℚ) / sent_count * 100 else 0
  { campaign_id := campaign_id
    sent := sent_count
    opened := opened_count
    clicked := clicked_count
    converted := converted_count
    open_rate := pyRound2 open_rate
    click_rate := pyRound2 click_rate
    conversion_rate := pyRound2 conversion_rate }

/-! Derived notions used to state the verified properties. -/

/-- The sequence of event types recorded for one `(campaign_id, customer_id)`
pair, in recording order. -/
def etypes (l : List Event) (campaign_id customer_id : String) : List String :=
  (l.filter (fun e => e.campaign_id == campaign_id && e.customer_id == customer_id)).map
    (fun e => e.event_type)

/-- Being one of the five initial segments of the funnel chain
`sent, opened, clicked, converted` (in that order). -/
def funnelChainPre (t : List String) : Prop :=
  t = [] ∨ t = ["sent"] ∨ t = ["sent", "opened"] ∨
    t = ["sent", "opened", "clicked"] ∨ t = ["sent", "opened", "clicked", "converted"]

/-- The event types `simulate_customer` records for its customer when the
draw counter stands at `k`. -/
def simTypes (rnd : Nat → Bool) (k : Nat) : List String :=
  "sent" ::
    (if rnd k then
      "opened" ::
        (if rnd (k + 1) then
          "clicked" :: (if rnd (k + 2) then ["converted"] else [])
        else [])
    else [])

/-- A run of `create_segment` calls (single writer, append-only). -/
def applySegmentCreates (reqs : List (String × Rules)) (s : State) : State :=
  reqs.foldl (fun st r => (create_segment st r.1 r.2).1) s

/-- A run of `create_campaign` calls (single writer, append-only). -/
def applyCampaignCreates (reqs : List (String × String × String × String × String))
    (s : State) : State :=
  reqs.foldl (fun st r => (create_campaign st r.1 r.2.1 r.2.2.1 r.2.2.2.1 r.2.2.2.2).1) s

/-- A run of `create_event` calls (single writer, append-only). -/
def applyEventCreates (reqs : List (String × String × String × String)) (s : State) : State :=
  reqs.foldl (fun st r => create_event st r.1 r.2.1 r.2.2.1 r.2.2.2) s

/-- The store before any record has been created. -/
def emptyState : State :=
  ⟨[], [], [], []⟩

/-- Numeric value of a decimal digit character. -/
def charVal (c : Char) : Nat :=
  c.toNat - 48

/-- The number denoted by a list of decimal digit characters (most
significant first): left inverse of `Nat.toDigits 10`. -/
def digitsVal (l : List Char) : Nat :=
  l.foldl (fun acc c => 10 * acc + charVal c) 0

/-! Concrete fixtures used by counterexamples and witnesses. -/

/-- A customer located in "ankara city". -/
def cAnk : Customer :=
  ⟨"1", "Ada", "ada@example.com", 30, "ankara city", 100, "2024-01-01"⟩

/-- A second customer with a distinct id. -/
def cIzm : Customer :=
  ⟨"2", "Banu", "banu@example.com", 50, "izmir", 10, "2023-05-05"⟩

/-- A store whose only campaign is a draft pointing at segment id "99",
which matches no segment. -/
def danglingState : State :=
  { customers := [cAnk, cIzm]
    segments := []
    campaigns := [⟨"1", "launch", "99", "2024-02-01", "draft", "hello", "body"⟩]
    events := [] }

/-- A store with one match-all segment and one draft campaign targeting it. -/
def liveState : State :=
  { customers := [cAnk, cIzm]
    segments := [⟨"1", "everyone", ⟨none, none, none, none⟩⟩]
    campaigns := [⟨"1", "launch", "1", "2024-02-01", "draft", "hello", "body"⟩]
    events := [] }

/-- 10 sent / 7 opened / 4 clicked / 2 converted events for campaign "X",
plus one event of another campaign. -/
def evX : List Event :=
  (List.replicate 10 ⟨"e", "X", "c", "sent", "t"⟩) ++
    (List.replicate 7 ⟨"e", "X", "c", "opened", "t"⟩) ++
      (List.replicate 4 ⟨"e", "X", "c", "clicked", "t"⟩) ++
        (List.replicate 2 ⟨"e", "X", "c", "converted", "t"⟩) ++
          [⟨"e", "Y", "c", "sent", "t"⟩]

/-- Two campaign rows, one matching id "1", one not. -/
def campRows : List Campaign :=
  [⟨"1", "launch", "1", "2024-02-01", "draft", "hello", "body"⟩,
   ⟨"2", "other", "2", "2024-03-01", "sent", "hi", "text"⟩]

/-- The campaign stored in `danglingState`. -/
def dangCamp : Campaign :=
  ⟨"1", "launch", "99", "2024-02-01", "draft", "hello", "body"⟩

/-- The campaign stored in `liveState`. -/
def liveCamp : Campaign :=
  ⟨"1", "launch", "1", "2024-02-01", "draft", "hello", "body"⟩

/-! ## Helper lemmas -/

/-- The accumulating loop of `filter_customers_by_segment` is `List.filter`. -/
theorem foldl_filter_eq (p : Customer → Bool) (l acc : List Customer) :
    l.foldl (fun filtered c => if p c then filtered ++ [c] else filtered) acc
      = acc ++ l.filter p := by
  induction l generalizing acc with
  | nil => simp
  | cons c t ih =>
    cases hp : p c <;> simp [List.filter_cons, hp, ih]

theorem filter_customers_eq_filter (customers : List Customer) (rules : Rules) :
    filter_customers_by_segment customers rules
      = customers.filter (fun c => match_customer_rules c rules) := by
  simpa using foldl_filter_eq (fun c => match_customer_rules c rules) customers []

theorem match_customer_rules_empty (c : Customer) :
    match_customer_rules c ⟨none, none, none, none⟩ = true := rfl

/-- `List.isPrefixOf` on characters decides "starts with". -/
theorem isPrefixOf_iff_exists (n : List Char) : ∀ h : List Char,
    n.isPrefixOf h = true ↔ ∃ t, h = n ++ t := by
  induction n with
  | nil => intro h; exact iff_of_true List.isPrefixOf_nil_left ⟨h, rfl⟩
  | cons a as ih =>
    intro h
    cases h with
    | nil =>
      constructor
      · intro h'; rw [List.isPrefixOf_cons_nil] at h'; exact absurd h' (by simp)
      · rintro ⟨t, ht⟩; exact absurd ht (by simp)
    | cons b bs =>
      simp only [List.isPrefixOf_cons₂, Bool.and_eq_true, beq_iff_eq, ih, List.cons_append,
        List.cons.injEq]
      constructor
      · rintro ⟨rfl, t, rfl⟩; exact ⟨t, rfl, rfl⟩
      · rintro ⟨t, rfl, rfl⟩; exact ⟨rfl, t, rfl⟩

/-- `charsContain` (Python's `in` on strings) decides substring
containment. -/
theorem charsContain_iff (n : List Char) : ∀ h : List Char,
    charsContain n h = true ↔ ∃ pre post, h = pre ++ n ++ post := by
  intro h
  induction h with
  | nil =>
    rw [show charsContain n [] = n.isEmpty from rfl]
    simp only [List.isEmpty_iff]
    constructor
    · rintro rfl; exact ⟨[], [], rfl⟩
    · rintro ⟨pre, post, hp⟩
      rcases List.append_eq_nil.mp hp.symm with ⟨h1, -⟩
      exact (List.append_eq_nil.mp h1).2
  | cons c t ih =>
    rw [show charsContain n (c :: t) = (n.isPrefixOf (c :: t) || charsContain n t) from rfl]
    simp only [Bool.or_eq_true, isPrefixOf_iff_exists, ih]
    constructor
    · rintro (⟨post, hp⟩ | ⟨pre, post, rfl⟩)
      · exact ⟨[], post, by simpa using hp⟩
      · exact ⟨c :: pre, post, by simp⟩
    · rintro ⟨pre, post, hp⟩
      cases pre with
      | nil => exact Or.inl ⟨post, by simpa using hp⟩
      | cons p ps =>
        simp only [List.cons_append, List.cons.injEq] at hp
        exact Or.inr ⟨ps, post, hp.2⟩

/-! ## Claim theorems -/

/-- C4: `filterBySegment` returns the ordered subsequence of the input that
matches the rules (it equals `List.filter` of the match predicate, hence is
a sublist preserving input order), and with no rule keys set it returns the
input unchanged. -/
theorem filter_by_segment_spec :
    (∀ (customers : List Customer) (rules : Rules),
      filter_customers_by_segment customers rules
        = customers.filter (fun c => match_customer_rules c rules)) ∧
    (∀ (customers : List Customer) (rules : Rules),
      (filter_customers_by_segment customers rules).Sublist customers) ∧
    (∀ customers : List Customer,
      filter_customers_by_segment customers ⟨none, none, none, none⟩ = customers) := by
  refine ⟨filter_customers_eq_filter, fun customers rules => ?_, fun customers => ?_⟩
  · rw [filter_customers_eq_filter]; exact List.filter_sublist customers
  · rw [filter_customers_eq_filter]
    simp [match_customer_rules_empty]

/-- C5: a sole nonzero `min_age` rule `a` passes exactly the customers with
`age ≥ a`, symmetrically for `max_age` (reject iff `age > a`) and
`min_total_spent` (reject iff `total_spent < a`); absent and falsy (zero or
empty-string) values impose no constraint; and a rule-set matches iff each
of the four present constraints passes (logical AND). -/
theorem match_rules_spec (c : Customer) :
    (∀ a : Int, a ≠ 0 →
      (match_customer_rules c ⟨some a, none, none, none⟩ = true ↔ a ≤ c.age)) ∧
    (∀ a : Int, a ≠ 0 →
      (match_customer_rules c ⟨none, some a, none, none⟩ = true ↔ c.age ≤ a)) ∧
    (∀ q : ℚ, q ≠ 0 →
      (match_customer_rules c ⟨none, none, none, some q⟩ = true ↔ q ≤ c.total_spent)) ∧
    (match_customer_rules c ⟨some 0, some 0, some "", some 0⟩ = true) ∧
    (match_customer_rules c ⟨none, none, none, none⟩ = true) ∧
    (∀ rules : Rules, match_customer_rules c rules =
      ((!activeI rules.min_age || decide (rules.min_age.getD 0 ≤ c.age)) &&
       ((!activeI rules.max_age || decide (c.age ≤ rules.max_age.getD 0)) &&
        ((!activeS rules.location || locContains c.location (rules.location.getD "")) &&
         (!activeQ rules.min_total_spent ||
           decide (rules.min_total_spent.getD 0 ≤ c.total_spent)))))) := by
  refine ⟨fun a ha => ?_, fun a ha => ?_, fun q hq => ?_, rfl, rfl, fun rules => ?_⟩
  · unfold match_customer_rules
    simp only [activeI, activeS, activeQ, Option.getD]
    rw [show (a != 0) = true by simpa using ha]
    simp [not_lt]
  · unfold match_customer_rules
    simp only [activeI, activeS, activeQ, Option.getD]
    rw [show (a != 0) = true by simpa using ha]
    simp [not_lt]
  · unfold match_customer_rules
    simp only [activeI, activeS, activeQ, Option.getD]
    simp only [show (q != 0) = true by simpa using hq]
    simp [not_lt]
  · unfold match_customer_rules
    cases h1 : activeI rules.min_age <;> cases h2 : activeI rules.max_age <;>
      cases h3 : activeS rules.location <;> cases h4 : activeQ rules.min_total_spent <;>
        simp only [Bool.false_and, Bool.true_and, Bool.not_false, Bool.not_true,
          Bool.true_or, Bool.false_or, if_false, if_true] <;>
        cases hd1 : decide (c.age < rules.min_age.getD 0) <;>
          cases hd2 : decide (c.age > rules.max_age.getD 0) <;>
            cases hl : locContains c.location (rules.location.getD "") <;>
              cases hd4 : decide (c.total_spent < rules.min_total_spent.getD 0) <;>
                simp_all [not_lt]

/-- Witness for C5 at a concrete customer and thresholds. -/
theorem match_rules_spec_witness :
    ((18 : Int) ≠ 0 ∧
      (match_customer_rules cAnk ⟨some 18, none, none, none⟩ = true ↔ (18 : Int) ≤ cAnk.age)) ∧
    ((60 : Int) ≠ 0 ∧
      (match_customer_rules cAnk ⟨none, some 60, none, none⟩ = true ↔ cAnk.age ≤ 60)) ∧
    ((50 : ℚ) ≠ 0 ∧
      (match_customer_rules cAnk ⟨none, none, none, some 50⟩ = true ↔
        (50 : ℚ) ≤ cAnk.total_spent)) :=
  ⟨⟨by decide, (match_rules_spec cAnk).1 18 (by decide)⟩,
   ⟨by decide, (match_rules_spec cAnk).2.1 60 (by decide)⟩,
   ⟨by decide, (match_rules_spec cAnk).2.2.1 50 (by decide)⟩⟩

/-- C6: a sole non-empty `location` rule passes exactly the customers whose
lower-cased location contains the lower-cased rule value as a substring
(`charsContain` decides exactly substring containment), and rule "Ankara"
matches location "ankara city". -/
theorem location_rule_spec :
    (∀ n h : List Char, charsContain n h = true ↔ ∃ pre post, h = pre ++ n ++ post) ∧
    (∀ (c : Customer) (v : String), v ≠ "" →
      (match_customer_rules c ⟨none, none, some v, none⟩ = true ↔
        ∃ pre post, (strLower c.location).data = pre ++ (strLower v).data ++ post)) ∧
    (match_customer_rules cAnk ⟨none, none, some "Ankara", none⟩ = true) := by
  refine ⟨charsContain_iff, fun c v hv => ?_, by decide⟩
  unfold match_customer_rules
  simp only [activeI, activeS, activeQ, Option.getD]
  rw [show (v != "") = true by simpa using hv]
  simp [locContains, charsContain_iff]

/-- Witness for C6 at a concrete customer and rule value. -/
theorem location_rule_spec_witness :
    "Ankara" ≠ "" ∧
    (match_customer_rules cAnk ⟨none, none, some "Ankara", none⟩ = true ↔
      ∃ pre post, (strLower cAnk.location).data = pre ++ (strLower "Ankara").data ++ post) :=
  ⟨by decide, location_rule_spec.2.1 cAnk "Ankara" (by decide)⟩

/-- C3: `campaignMetrics` counts the events of each of the four types whose
`campaign_id` equals the given id, computes each rate as
`count/sent*100` rounded to 2 decimal places with rate 0 when `sent = 0`;
the 10/7/4/2 example yields rates 70, 40, 20, and no events yields all
counts and rates 0. -/
theorem campaign_metrics_spec :
    (∀ (events : List Event) (cid : String),
      (get_campaign_metrics events cid).campaign_id = cid ∧
      (get_campaign_metrics events cid).sent
        = (events.filter (fun e => e.campaign_id == cid && e.event_type == "sent")).length ∧
      (get_campaign_metrics events cid).opened
        = (events.filter (fun e => e.campaign_id == cid && e.event_type == "opened")).length ∧
      (get_campaign_metrics events cid).clicked
        = (events.filter (fun e => e.campaign_id == cid && e.event_type == "clicked")).length ∧
      (get_campaign_metrics events cid).converted
        = (events.filter (fun e => e.campaign_id == cid && e.event_type == "converted")).length ∧
      (get_campaign_metrics events cid).open_rate
        = (if (get_campaign_metrics events cid).sent = 0 then 0
           else pyRound2 (((get_campaign_metrics events cid).opened : ℚ)
                  / ((get_campaign_metrics events cid).sent) * 100)) ∧
      (get_campaign_metrics events cid).click_rate
        = (if (get_campaign_metrics events cid).sent = 0 then 0
           else pyRound2 (((get_campaign_metrics events cid).clicked : ℚ)
                  / ((get_campaign_metrics events cid).sent) * 100)) ∧
      (get_campaign_metrics events cid).conversion_rate
        = (if (get_campaign_metrics events cid).sent = 0 then 0
           else pyRound2 (((get_campaign_metrics events cid).converted : ℚ)
                  / ((get_campaign_metrics events cid).sent) * 100))) ∧
    ((get_campaign_metrics evX "X").sent = 10 ∧
     (get_campaign_metrics evX "X").opened = 7 ∧
     (get_campaign_metrics evX "X").clicked = 4 ∧
     (get_campaign_metrics evX "X").converted = 2 ∧
     (get_campaign_metrics evX "X").open_rate = 70 ∧
     (get_campaign_metrics evX "X").click_rate = 40 ∧
     (get_campaign_metrics evX "X").conversion_rate = 20) ∧
    ((get_campaign_metrics [] "X").sent = 0 ∧
     (get_campaign_metrics [] "X").opened = 0 ∧
     (get_campaign_metrics [] "X").clicked = 0 ∧
     (get_campaign_metrics [] "X").converted = 0 ∧
     (get_campaign_metrics [] "X").open_rate = 0 ∧
     (get_campaign_metrics [] "X").click_rate = 0 ∧
     (get_campaign_metrics [] "X").conversion_rate = 0) := by
  have hgen : ∀ (events : List Event) (cid : String),
      (get_campaign_metrics events cid).campaign_id = cid ∧
      (get_campaign_metrics events cid).sent
        = (events.filter (fun e => e.campaign_id == cid && e.event_type == "sent")).length ∧
      (get_campaign_metrics events cid).opened
        = (events.filter (fun e => e.campaign_id == cid && e.event_type == "opened")).length ∧
      (get_campaign_metrics events cid).clicked
        = (events.filter (fun e => e.campaign_id == cid && e.event_type == "clicked")).length ∧
      (get_campaign_metrics events cid).converted
        = (events.filter (fun e => e.campaign_id == cid && e.event_type == "converted")).length ∧
      (get_campaign_metrics events cid).open_rate
        = (if (get_campaign_metrics events cid).sent = 0 then 0
           else pyRound2 (((get_campaign_metrics events cid).opened : ℚ)
                  / ((get_campaign_metrics events cid).sent) * 100)) ∧
      (get_campaign_metrics events cid).click_rate
        = (if (get_campaign_metrics events cid).sent = 0 then 0
           else pyRound2 (((get_campaign_metrics events cid).clicked : ℚ)
                  / ((get_campaign_metrics events cid).sent) * 100)) ∧
      (get_campaign_metrics events cid).conversion_rate
        = (if (get_campaign_metrics events cid).sent = 0 then 0
           else pyRound2 (((get_campaign_metrics events cid).converted : ℚ)
                  / ((get_campaign_metrics events cid).sent) * 100)) := by
    intro events cid
    refine ⟨rfl, ?_, ?_, ?_, ?_, ?_, ?_, ?_⟩ <;>
      simp only [get_campaign_metrics] <;>
      rw [List.filter_filter]
    · simp [Bool.and_comm]
    · simp [Bool.and_comm]
    · simp [Bool.and_comm]
    · simp [Bool.and_comm]
    all_goals {
      by_cases hs :
        (List.filter (fun a => a.event_type == "sent" && a.campaign_id == cid) events).length = 0
      · simp [hs, pyRound2, roundHalfEven]
      · simp [hs, Nat.pos_of_ne_zero hs]
    }
  refine ⟨hgen, ⟨by decide, by decide, by decide, by decide, ?_, ?_, ?_⟩,
    ⟨by decide, by decide, by decide, by decide, ?_, ?_, ?_⟩⟩
  · rw [(hgen evX "X").2.2.2.2.2.1,
      show (get_campaign_metrics evX "X").sent = 10 from by decide,
      show (get_campaign_metrics evX "X").opened = 7 from by decide]
    norm_num [pyRound2, roundHalfEven]
  · rw [(hgen evX "X").2.2.2.2.2.2.1,
      show (get_campaign_metrics evX "X").sent = 10 from by decide,
      show (get_campaign_metrics evX "X").clicked = 4 from by decide]
    norm_num [pyRound2, roundHalfEven]
  · rw [(hgen evX "X").2.2.2.2.2.2.2,
      show (get_campaign_metrics evX "X").sent = 10 from by decide,
      show (get_campaign_metrics evX "X").converted = 2 from by decide]
    norm_num [pyRound2, roundHalfEven]
  · rw [(hgen [] "X").2.2.2.2.2.1, show (get_campaign_metrics [] "X").sent = 0 from by decide]
    simp
  · rw [(hgen [] "X").2.2.2.2.2.2.1,
      show (get_campaign_metrics [] "X").sent = 0 from by decide]
    simp
  · rw [(hgen [] "X").2.2.2.2.2.2.2,
      show (get_campaign_metrics [] "X").sent = 0 from by decide]
    simp


/-- `create_event` and hence each step of the send loop leaves the campaign
collection untouched. -/
theorem simulate_customer_campaigns (cid ts : String) (rnd : Nat → Bool)
    (st : State × Nat) (c : Customer) :
    ((simulate_customer cid ts rnd st c).1).campaigns = st.1.campaigns := by
  unfold simulate_customer
  split_ifs <;> rfl


/-- The whole send loop leaves the campaign collection untouched. -/
theorem send_loop_campaigns (cid ts : String) (rnd : Nat → Bool) :
    ∀ (custs : List Customer) (st : State × Nat),
      ((send_loop cid ts rnd custs st).1).campaigns = st.1.campaigns := by
  intro custs
  induction custs with
  | nil => intro st; rfl
  | cons c t ih =>
    intro st
    show ((send_loop cid ts rnd t (simulate_customer cid ts rnd st c)).1).campaigns = _
    rw [ih, simulate_customer_campaigns]


/-- Rewriting statuses maps the first record found for an id to the same
record with the new status. -/
theorem find?_update_campaign_rows (l : List Campaign) (cid ns : String) (camp : Campaign)
    (h : l.find? (fun c => c.campaign_id == cid) = some camp) :
    (update_campaign_rows l cid ns).find? (fun c => c.campaign_id == cid)
      = some { camp with status := ns } := by
  induction l with
  | nil => simp at h
  | cons a l ih =>
    unfold update_campaign_rows at *
    cases ha : (a.campaign_id == cid) with
    | true =>
      rw [List.find?_cons] at h
      rw [ha] at h
      injection h with h
      subst h
      simp only [List.map_cons, ha, if_true]
      rw [List.find?_cons]
      simp [ha]
    | false =>
      rw [List.find?_cons] at h
      rw [ha] at h
      simp only [List.map_cons]
      rw [List.find?_cons]
      simp only [ha, Bool.false_eq_true, if_false]
      exact ih (by exact h)


/-- C2: after a send, a second send of the same campaign returns 0 and
changes nothing: the pair of results is `(countOfFirstCall, 0)` and the
state (campaigns, events, everything) after the second call equals the
state after the first, because `send` on a missing or non-`draft` campaign
is a guarded no-op. -/
theorem send_idempotent (s : State) (cid ts1 ts2 : String) (r1 r2 : Nat → Bool) :
    send_campaign (send_campaign s cid ts1 r1).1 cid ts2 r2
      = ((send_campaign s cid ts1 r1).1, 0) := by
  cases hc : get_campaign_by_id s cid with
  | none =>
    have h1 : send_campaign s cid ts1 r1 = (s, 0) := by
      unfold send_campaign; rw [hc]
    rw [h1]
    unfold send_campaign; rw [hc]
  | some camp =>
    by_cases hst : camp.status = "draft"
    · have h1 : (send_campaign s cid ts1 r1).1
          = update_campaign_status
              (send_loop cid ts1 r1 (get_campaign_customers s cid) (s, 0)).1 cid "sent" := by
        unfold send_campaign; rw [hc]; simp [hst]
      have h2 : get_campaign_by_id (send_campaign s cid ts1 r1).1 cid
          = some { camp with status := "sent" } := by
        rw [h1]
        show (update_campaign_rows
            ((send_loop cid ts1 r1 (get_campaign_customers s cid) (s, 0)).1).campaigns
            cid "sent").find? (fun c => c.campaign_id == cid) = _
        rw [send_loop_campaigns]
        exact find?_update_campaign_rows _ _ _ _ hc
      generalize hg : (send_campaign s cid ts1 r1).1 = s1 at h2 ⊢
      unfold send_campaign
      rw [h2]
      simp
    · have h1 : send_campaign s cid ts1 r1 = (s, 0) := by
        unfold send_campaign; rw [hc]; simp [bne_iff_ne, hst]
      rw [h1]
      unfold send_campaign; rw [hc]; simp [bne_iff_ne, hst]


/-- Appending one event extends a pair's recorded types by that event's
type when the pair matches, else leaves them unchanged. -/
theorem etypes_append_one (l : List Event) (e : Event) (cid d : String) :
    etypes (l ++ [e]) cid d
      = etypes l cid d
          ++ (if e.campaign_id == cid && e.customer_id == d then [e.event_type] else []) := by
  unfold etypes
  rw [List.filter_append, List.map_append]
  congr 1
  cases h : (e.campaign_id == cid && e.customer_id == d) <;> simp [List.filter_cons, h]


/-- `create_event` for the filtered campaign extends exactly the matching
customer's recorded types. -/
theorem etypes_create_event (s : State) (cid custid ty ts d : String) :
    etypes (create_event s cid custid ty ts).events cid d
      = etypes s.events cid d ++ (if custid == d then [ty] else []) := by
  unfold create_event
  rw [show ({ s with events := s.events ++
      [⟨generate_event_id s.events, cid, custid, ty, ts⟩] } : State).events
        = s.events ++ [⟨generate_event_id s.events, cid, custid, ty, ts⟩] from rfl]
  rw [etypes_append_one]
  simp


/-- The per-customer simulation records one of the four nonempty funnel
chain initial segments. -/
theorem simTypes_chain (rnd : Nat → Bool) (k : Nat) : funnelChainPre (simTypes rnd k) := by
  unfold simTypes funnelChainPre
  cases rnd k <;> cases rnd (k + 1) <;> cases rnd (k + 2) <;> simp


/-- `simulate_customer` appends `simTypes` for its own customer and nothing
for any other pair. -/
theorem simulate_customer_etypes (cid ts : String) (rnd : Nat → Bool)
    (st : State × Nat) (c : Customer) (d : String) :
    etypes ((simulate_customer cid ts rnd st c).1).events cid d
      = etypes st.1.events cid d
          ++ (if c.customer_id == d then simTypes rnd st.2 else []) := by
  unfold simulate_customer simTypes
  cases h1 : rnd st.2 <;> cases h2 : rnd (st.2 + 1) <;> cases h3 : rnd (st.2 + 2) <;>
    simp only [h1, h2, h3, if_true, if_false, etypes_create_event] <;>
      cases hd : (c.customer_id == d) <;> simp [etypes_create_event, hd]


/-- Customers whose id never occurs in the remaining audience contribute no
events for that pair. -/
theorem send_loop_etypes_not_mem (cid ts : String) (rnd : Nat → Bool) :
    ∀ (custs : List Customer) (st : State × Nat) (d : String),
      (∀ c ∈ custs, c.customer_id ≠ d) →
      etypes ((send_loop cid ts rnd custs st).1).events cid d = etypes st.1.events cid d := by
  intro custs
  induction custs with
  | nil => intro st d _; rfl
  | cons c t ih =>
    intro st d hmem
    show etypes ((send_loop cid ts rnd t (simulate_customer cid ts rnd st c)).1).events cid d = _
    rw [ih _ d (fun c' hc' => hmem c' (List.mem_cons_of_mem _ hc'))]
    rw [simulate_customer_etypes]
    have : (c.customer_id == d) = false := by
      simpa using hmem c (List.mem_cons_self _ _)
    simp [this]


/-- Over an audience with pairwise-distinct customer ids, the loop appends,
for each pair, an initial segment of the funnel chain. -/
theorem send_loop_etypes (cid ts : String) (rnd : Nat → Bool) :
    ∀ (custs : List Customer) (st : State × Nat) (d : String),
      (custs.map (fun c => c.customer_id)).Nodup →
      ∃ t, funnelChainPre t ∧
        etypes ((send_loop cid ts rnd custs st).1).events cid d
          = etypes st.1.events cid d ++ t := by
  intro custs
  induction custs with
  | nil => intro st d _; exact ⟨[], Or.inl rfl, by simp [send_loop]⟩
  | cons c t ih =>
    intro st d hnd
    simp only [List.map_cons, List.nodup_cons] at hnd
    show ∃ u, funnelChainPre u ∧
      etypes ((send_loop cid ts rnd t (simulate_customer cid ts rnd st c)).1).events cid d = _
    cases hd : (c.customer_id == d) with
    | true =>
      have hdq : c.customer_id = d := by simpa using hd
      have hrest : ∀ c' ∈ t, c'.customer_id ≠ d := by
        intro c' hc' heq
        apply hnd.1
        have hcc : c.customer_id = c'.customer_id := by rw [hdq, heq]
        rw [hcc]
        exact List.mem_map_of_mem _ hc'
      rw [send_loop_etypes_not_mem cid ts rnd t _ d hrest, simulate_customer_etypes, hd]
      exact ⟨simTypes rnd st.2, simTypes_chain rnd st.2, by simp⟩
    | false =>
      rcases ih (simulate_customer cid ts rnd st c) d hnd.2 with ⟨u, hch, he⟩
      refine ⟨u, hch, ?_⟩
      rw [he, simulate_customer_etypes, hd]
      simp


/-- C7: during a single `send`, for every `(campaign_id, customer_id)` pair
and every outcome of the random source, the event types recorded for that
pair form an initial segment of the chain
`sent, opened, clicked, converted`, in that order (audience customer ids
are pairwise distinct, the store's id-uniqueness invariant). -/
theorem send_funnel_order (s : State) (cid ts : String) (rnd : Nat → Bool)
    (h : ((get_campaign_customers s cid).map (fun c => c.customer_id)).Nodup) (d : String) :
    ∃ t, funnelChainPre t ∧
      etypes ((send_campaign s cid ts rnd).1).events cid d
        = etypes s.events cid d ++ t := by
  unfold send_campaign
  cases hc : get_campaign_by_id s cid with
  | none => exact ⟨[], Or.inl rfl, by simp⟩
  | some camp =>
    by_cases hst : camp.status = "draft"
    · simp only [hst, bne_self_eq_false, Bool.false_eq_true, if_false]
      rcases send_loop_etypes cid ts rnd (get_campaign_customers s cid) (s, 0) d h with
        ⟨t, hch, he⟩
      exact ⟨t, hch, by
        rw [show (update_campaign_status
            (send_loop cid ts rnd (get_campaign_customers s cid) (s, 0)).1 cid "sent").events
          = ((send_loop cid ts rnd (get_campaign_customers s cid) (s, 0)).1).events from rfl]
        exact he⟩
    · refine ⟨[], Or.inl rfl, ?_⟩
      have hb : (camp.status != "draft") = true := by simpa using hst
      simp [hb]


/-- Witness for C7 at a concrete store and a deterministic random source. -/
theorem send_funnel_order_witness :
    ((get_campaign_customers liveState "1").map (fun c => c.customer_id)).Nodup ∧
    (∃ t, funnelChainPre t ∧
      etypes ((send_campaign liveState "1" "t" (fun _ => true)).1).events "1" "1"
        = etypes liveState.events "1" "1" ++ t) :=
  ⟨by decide, send_funnel_order liveState "1" "t" (fun _ => true) (by decide) "1"⟩


/-- C8: `send` on an existing draft campaign returns the resolved audience
size, for every outcome of the random source (independent of how many
`opened`/`clicked`/`converted` events the simulation records). -/
theorem send_returns_audience_size (s : State) (cid ts : String) (rnd : Nat → Bool)
    (camp : Campaign) (hc : get_campaign_by_id s cid = some camp)
    (hst : camp.status = "draft") :
    (send_campaign s cid ts rnd).2 = (get_campaign_customers s cid).length := by
  unfold send_campaign
  rw [hc]
  simp [hst]


/-- Witness for C8 at a concrete store. -/
theorem send_returns_audience_size_witness :
    get_campaign_by_id liveState "1" = some liveCamp ∧
    liveCamp.status = "draft" ∧
    (send_campaign liveState "1" "t" (fun _ => true)).2
      = (get_campaign_customers liveState "1").length :=
  ⟨by decide, by decide,
   send_returns_audience_size liveState "1" "t" (fun _ => true) liveCamp (by decide) (by decide)⟩


/-- C1 (amended): `send` on a draft campaign whose `segment_id` matches no
segment returns 0 and its audience resolves to the empty list without
error, but the campaign's status is updated to `sent`, not left `draft`. -/
theorem send_dangling_segment (s : State) (cid ts : String) (rnd : Nat → Bool) (camp : Campaign)
    (hc : get_campaign_by_id s cid = some camp) (hst : camp.status = "draft")
    (hseg : get_segment_by_id s camp.segment_id = none) :
    (send_campaign s cid ts rnd).2 = 0 ∧
    get_campaign_customers s cid = [] ∧
    get_campaign_by_id (send_campaign s cid ts rnd).1 cid
      = some { camp with status := "sent" } := by
  have hcust : get_campaign_customers s cid = [] := by
    unfold get_campaign_customers
    rw [hc]
    simp [hseg]
  have h1 : send_campaign s cid ts rnd = (update_campaign_status s cid "sent", 0) := by
    unfold send_campaign
    rw [hc]
    simp [hst, hcust, send_loop]
  refine ⟨by rw [h1], hcust, ?_⟩
  rw [h1]
  exact find?_update_campaign_rows _ _ _ _ hc


/-- Witness for C1 (amended) at a concrete store. -/
theorem send_dangling_segment_witness :
    get_campaign_by_id danglingState "1" = some dangCamp ∧
    dangCamp.status = "draft" ∧
    get_segment_by_id danglingState dangCamp.segment_id = none ∧
    ((send_campaign danglingState "1" "t" (fun _ => false)).2 = 0 ∧
     get_campaign_customers danglingState "1" = [] ∧
     get_campaign_by_id (send_campaign danglingState "1" "t" (fun _ => false)).1 "1"
       = some { dangCamp with status := "sent" }) :=
  ⟨by decide, by decide, by decide,
   send_dangling_segment danglingState "1" "t" (fun _ => false) dangCamp
     (by decide) (by decide) (by decide)⟩


/-- C1 counterexample: at a concrete store with a dangling `segment_id`,
`send` returns 0 and the audience is empty, but the status after the call
is `sent`, not `draft` as the claim states. -/
theorem dangling_segment_flips_status :
    (send_campaign danglingState "1" "t" (fun _ => false)).2 = 0 ∧
    get_campaign_customers danglingState "1" = [] ∧
    ((send_campaign danglingState "1" "t" (fun _ => false)).1.campaigns.map
        (fun c => c.status)) = ["sent"] ∧
    ((send_campaign danglingState "1" "t" (fun _ => false)).1.campaigns.map
        (fun c => c.status)) ≠ ["draft"] := by
  decide

/-- C10: the status-update rewrite preserves the number and order of
campaign records; at every index every field other than `status` is
unchanged, and `status` becomes the new value exactly on records whose
`campaign_id` equals the given id (non-matching records are unchanged
entirely). -/
theorem update_status_frame (campaigns : List Campaign) (campaign_id new_status : String) :
    (update_campaign_rows campaigns campaign_id new_status).length = campaigns.length ∧
    ∀ i (h : i < campaigns.length)
      (h' : i < (update_campaign_rows campaigns campaign_id new_status).length),
      (update_campaign_rows campaigns campaign_id new_status)[i].campaign_id
          = campaigns[i].campaign_id ∧
      (update_campaign_rows campaigns campaign_id new_status)[i].name = campaigns[i].name ∧
      (update_campaign_rows campaigns campaign_id new_status)[i].segment_id
          = campaigns[i].segment_id ∧
      (update_campaign_rows campaigns campaign_id new_status)[i].start_date
          = campaigns[i].start_date ∧
      (update_campaign_rows campaigns campaign_id new_status)[i].subject
          = campaigns[i].subject ∧
      (update_campaign_rows campaigns campaign_id new_status)[i].body = campaigns[i].body ∧
      (update_campaign_rows campaigns campaign_id new_status)[i].status
          = (if campaigns[i].campaign_id == campaign_id then new_status
             else campaigns[i].status) := by
  refine ⟨by simp [update_campaign_rows], fun i h h' => ?_⟩
  simp only [update_campaign_rows, List.getElem_map]
  split <;> simp_all

/-- Witness for C10 at a concrete campaign collection and index 0. -/
theorem update_status_frame_witness :
    (update_campaign_rows campRows "1" "sent").length = campRows.length ∧
    ((update_campaign_rows campRows "1" "sent").get ⟨0, by decide⟩).campaign_id
        = (campRows.get ⟨0, by decide⟩).campaign_id ∧
    ((update_campaign_rows campRows "1" "sent").get ⟨0, by decide⟩).name
        = (campRows.get ⟨0, by decide⟩).name ∧
    ((update_campaign_rows campRows "1" "sent").get ⟨0, by decide⟩).segment_id
        = (campRows.get ⟨0, by decide⟩).segment_id ∧
    ((update_campaign_rows campRows "1" "sent").get ⟨0, by decide⟩).start_date
        = (campRows.get ⟨0, by decide⟩).start_date ∧
    ((update_campaign_rows campRows "1" "sent").get ⟨0, by decide⟩).subject
        = (campRows.get ⟨0, by decide⟩).subject ∧
    ((update_campaign_rows campRows "1" "sent").get ⟨0, by decide⟩).body
        = (campRows.get ⟨0, by decide⟩).body ∧
    ((update_campaign_rows campRows "1" "sent").get ⟨0, by decide⟩).status
        = (if (campRows.get ⟨0, by decide⟩).campaign_id == "1" then "sent"
           else (campRows.get ⟨0, by decide⟩).status) :=
  ⟨(update_status_frame campRows "1" "sent").1,
   (update_status_frame campRows "1" "sent").2 0 (by decide) (by decide)⟩

/-- Unfolding equation of `Nat.toDigitsCore` on positive fuel. -/
theorem toDigitsCore_succ (b f n : Nat) (ds : List Char) :
    Nat.toDigitsCore b (f + 1) n ds =
      if n / b = 0 then Nat.digitChar (n % b) :: ds
      else Nat.toDigitsCore b f (n / b) (Nat.digitChar (n % b) :: ds) := rfl

/-- The digit accumulator of `Nat.toDigitsCore` only prepends. -/
theorem toDigitsCore_append (b : Nat) : ∀ (f n : Nat) (ds : List Char),
    Nat.toDigitsCore b f n ds = Nat.toDigitsCore b f n [] ++ ds := by
  intro f
  induction f with
  | zero => intro n ds; rfl
  | succ f ih =>
    intro n ds
    rw [toDigitsCore_succ, toDigitsCore_succ]
    by_cases h : n / b = 0
    · simp [h]
    · rw [if_neg h, if_neg h, ih (n / b) (Nat.digitChar (n % b) :: ds),
        ih (n / b) [Nat.digitChar (n % b)]]
      simp

/-- `Nat.toDigitsCore` at base 10 is fuel-independent once the fuel
exceeds the number. -/
theorem toDigitsCore_fuel (n : Nat) : ∀ f g : Nat, n < f → n < g →
    Nat.toDigitsCore 10 f n [] = Nat.toDigitsCore 10 g n [] := by
  induction n using Nat.strong_induction_on with
  | _ n ih =>
    intro f g hf hg
    obtain ⟨f', rfl⟩ : ∃ f', f = f' + 1 := ⟨f - 1, by omega⟩
    obtain ⟨g', rfl⟩ : ∃ g', g = g' + 1 := ⟨g - 1, by omega⟩
    rw [toDigitsCore_succ, toDigitsCore_succ]
    by_cases h : n / 10 = 0
    · simp [h]
    · rw [if_neg h, if_neg h, toDigitsCore_append 10 f', toDigitsCore_append 10 g']
      have hlt : n / 10 < n := Nat.div_lt_self (by omega) (by omega)
      rw [ih (n / 10) hlt f' g' (by omega) (by omega)]

/-- `charVal` inverts `Nat.digitChar` on decimal digits. -/
theorem charVal_digitChar (d : Nat) (h : d < 10) : charVal (Nat.digitChar d) = d := by
  interval_cases d <;> rfl

/-- Appending one digit multiplies the value by 10 and adds the digit. -/
theorem digitsVal_append (l : List Char) (c : Char) :
    digitsVal (l ++ [c]) = 10 * digitsVal l + charVal c := by
  unfold digitsVal
  rw [List.foldl_append]
  rfl

/-- `digitsVal` is a left inverse of decimal printing: the decimal digit
string of `n` denotes `n`. -/
theorem digitsVal_toDigits (n : Nat) : digitsVal (Nat.toDigits 10 n) = n := by
  induction n using Nat.strong_induction_on with
  | _ n ih =>
    unfold Nat.toDigits
    rw [toDigitsCore_succ]
    by_cases h : n / 10 = 0
    · rw [if_pos h]
      have h10 : n < 10 := by omega
      have hm : n % 10 = n := Nat.mod_eq_of_lt h10
      rw [hm]
      show digitsVal [Nat.digitChar n] = n
      unfold digitsVal
      simp [charVal_digitChar n h10]
    · rw [if_neg h, toDigitsCore_append]
      have hlt : n / 10 < n := Nat.div_lt_self (by omega) (by omega)
      have hfuel : Nat.toDigitsCore 10 n (n / 10) [] = Nat.toDigits 10 (n / 10) := by
        unfold Nat.toDigits
        exact toDigitsCore_fuel (n / 10) n (n / 10 + 1) (by omega) (by omega)
      rw [hfuel, digitsVal_append, ih (n / 10) hlt,
        charVal_digitChar _ (Nat.mod_lt n (by omega))]
      omega

/-- Distinct naturals have distinct decimal string representations. -/
theorem natRepr_injective : Function.Injective Nat.repr := by
  intro m n h
  have hd : Nat.toDigits 10 m = Nat.toDigits 10 n := by
    have := congrArg String.data h
    simpa [Nat.repr, List.asString] using this
  calc m = digitsVal (Nat.toDigits 10 m) := (digitsVal_toDigits m).symm
    _ = digitsVal (Nat.toDigits 10 n) := by rw [hd]
    _ = n := digitsVal_toDigits n

/-- A creation run assigns segment ids `len+1, len+2, ...` as strings. -/
theorem applySegmentCreates_ids : ∀ (reqs : List (String × Rules)) (s : State),
    (applySegmentCreates reqs s).segments.map (fun sg => sg.segment_id)
      = s.segments.map (fun sg => sg.segment_id)
        ++ (List.range' (s.segments.length + 1) reqs.length).map (fun m => toString m) := by
  intro reqs
  induction reqs with
  | nil => intro s; simp [applySegmentCreates]
  | cons r t ih =>
    intro s
    show (applySegmentCreates t (create_segment s r.1 r.2).1).segments.map _ = _
    rw [ih]
    simp [create_segment, List.range'_succ]

/-- A creation run assigns campaign ids `len+1, len+2, ...` as strings. -/
theorem applyCampaignCreates_ids :
    ∀ (reqs : List (String × String × String × String × String)) (s : State),
    (applyCampaignCreates reqs s).campaigns.map (fun c => c.campaign_id)
      = s.campaigns.map (fun c => c.campaign_id)
        ++ (List.range' (s.campaigns.length + 1) reqs.length).map (fun m => toString m) := by
  intro reqs
  induction reqs with
  | nil => intro s; simp [applyCampaignCreates]
  | cons r t ih =>
    intro s
    show (applyCampaignCreates t
      (create_campaign s r.1 r.2.1 r.2.2.1 r.2.2.2.1 r.2.2.2.2).1).campaigns.map _ = _
    rw [ih]
    simp [create_campaign, List.range'_succ]

/-- A creation run assigns event ids `len+1, len+2, ...` as strings. -/
theorem applyEventCreates_ids :
    ∀ (reqs : List (String × String × String × String)) (s : State),
    (applyEventCreates reqs s).events.map (fun e => e.event_id)
      = s.events.map (fun e => e.event_id)
        ++ (List.range' (s.events.length + 1) reqs.length).map (fun m => toString m) := by
  intro reqs
  induction reqs with
  | nil => intro s; simp [applyEventCreates]
  | cons r t ih =>
    intro s
    show (applyEventCreates t (create_event s r.1 r.2.1 r.2.2.1 r.2.2.2)).events.map _ = _
    rw [ih]
    simp [create_event, generate_event_id, List.range'_succ]

/-- C9: every creation operation assigns the new identifier as the count of
existing records plus 1, converted to string, and consequently any
single-writer append-only run of creations from the empty store yields
pairwise-distinct identifiers in each of the three collections. -/
theorem creation_id_scheme :
    (∀ (s : State) (name : String) (rules : Rules),
      (create_segment s name rules).2 = toString (s.segments.length + 1)) ∧
    (∀ (s : State) (n sid sd sub bd : String),
      (create_campaign s n sid sd sub bd).2 = toString (s.campaigns.length + 1)) ∧
    (∀ events : List Event, generate_event_id events = toString (events.length + 1)) ∧
    (∀ reqs : List (String × Rules),
      ((applySegmentCreates reqs emptyState).segments.map (fun sg => sg.segment_id)).Nodup) ∧
    (∀ reqs : List (String × String × String × String × String),
      ((applyCampaignCreates reqs emptyState).campaigns.map
        (fun c => c.campaign_id)).Nodup) ∧
    (∀ reqs : List (String × String × String × String),
      ((applyEventCreates reqs emptyState).events.map (fun e => e.event_id)).Nodup) := by
  have hnodup : ∀ k n : Nat, ((List.range' k n).map (fun m => toString m)).Nodup :=
    fun k n => List.Nodup.map natRepr_injective (List.nodup_range' k n)
  refine ⟨fun s name rules => rfl, fun s n sid sd sub bd => rfl, fun evs => rfl, ?_, ?_, ?_⟩
  · intro reqs
    rw [applySegmentCreates_ids]
    simpa [emptyState] using hnodup 1 reqs.length
  · intro reqs
    rw [applyCampaignCreates_ids]
    simpa [emptyState] using hnodup 1 reqs.length
  · intro reqs
    rw [applyEventCreates_ids]
    simpa [emptyState] using hnodup 1 reqs.length

end Marketing
